import Mathlib

/-!
Verification of the OAuth proxy authorization server, token validator and
registration endpoints of an MCP (Model Context Protocol) gateway.

The definitions below are a shallow embedding of the TypeScript source:

* `src/auth/oauth-proxy.ts` — dynamic client registration (`POST /register`),
  authorization endpoint (`GET /authorize`), IdP callback
  (`GET /auth/callback`), token endpoint (`POST /token`) and the periodic
  sweeper over the in-memory stores;
* `src/auth/validate-jwt.ts` — the strict (`validateJwt`) and permissive
  (`validateJwtOptional`) Bearer-token middlewares.

Modelling conventions:

* JavaScript `Map`s become association lists (`aget` / `aset` / `adel`),
  with `Map.set` replacing an existing key and `Map.delete` removing it.
* Query / body fields that the handlers test for truthiness are `String`s
  where the empty string stands for a missing (`undefined`) or empty field —
  exactly the cases the source treats as falsy — and `Option` where the
  source distinguishes `undefined` from values.
* `Date.now ()` is an explicit `now : Nat` parameter (milliseconds).
* Outbound IdP HTTP exchanges are a parameter of `Idp...` type listing the
  three outcomes the handler distinguishes: a JSON error payload, a
  successful token payload, or a thrown exception (network failure).
* `BASE64URL (SHA256 -)` and RSA signature checking are abstract function
  parameters (`sha256b64u`, `sigValid`): the claims under study are about
  control and data flow around these primitives, never about their values.
* `new URL (s)` plus `searchParams.set` plus `toString ()` is modelled by
  `splitUrl` / `setParam` over a `UrlModel` (base part plus ordered query
  parameters); `setParam` has the `URLSearchParams.set` semantics of
  replacing the first occurrence and dropping later ones.
-/

namespace McpGateway

/-! ## String utilities

Structural (kernel-reducible) counterparts of the JavaScript string
operations the source uses: `split` on a one-character separator,
`startsWith`, and `Array.join`. -/

/-- Worker for `splitOnChar`: split the remaining characters at the
separator, `acc` holding the current (reversed) segment. -/
def splitAux (sep : Char) : List Char → List Char → List (List Char)
  | [], acc => [acc.reverse]
  | c :: cs, acc =>
      if c = sep then acc.reverse :: splitAux sep cs []
      else splitAux sep cs (c :: acc)

/-- JavaScript `s.split (sep)` for a one-character separator. -/
def splitOnChar (sep : Char) (s : String) : List String :=
  (splitAux sep s.data []).map String.mk

/-- JavaScript `s.startsWith (pre)`. -/
def strStartsWith (s pre : String) : Bool :=
  pre.data.isPrefixOf s.data

/-- JavaScript `Array.join (sep)`. -/
def joinSep (sep : String) : List String → String
  | [] => ""
  | [x] => x
  | x :: xs => x ++ sep ++ joinSep sep xs

/-! ## Association-list stores (JavaScript `Map` semantics) -/

/-- Lookup in an association list (`Map.get`). -/
def aget {α : Type} : List (String × α) → String → Option α
  | [], _ => none
  | (k', v) :: rest, k => if k' = k then some v else aget rest k

/-- Deletion from an association list (`Map.delete`), removing every binding
of the key. -/
def adel {α : Type} (m : List (String × α)) (k : String) : List (String × α) :=
  m.filter (fun p => p.1 ≠ k)

/-- Insertion into an association list (`Map.set`), replacing any existing
binding of the key. -/
def aset {α : Type} (m : List (String × α)) (k : String) (v : α) : List (String × α) :=
  (k, v) :: adel m k

/-! ## URL model (`new URL` / `URLSearchParams.set` / `toString`) -/

/-- A URL split into everything before the query string and the ordered list
of query parameters. -/
structure UrlModel where
  base : String
  params : List (String × String)
deriving DecidableEq, Repr

/-- Parse a query string `k1=v1&k2=v2&...` into parameter pairs. -/
def parseQuery (s : String) : List (String × String) :=
  if s = "" then []
  else (splitOnChar '&' s).map (fun kv =>
    match splitOnChar '=' kv with
    | [] => ("", "")
    | [k] => (k, "")
    | k :: v => (k, joinSep "=" v))

/-- Parse a URL string into a `UrlModel` at the first `?`. -/
def splitUrl (s : String) : UrlModel :=
  match splitOnChar '?' s with
  | [] => { base := s, params := [] }
  | [b] => { base := b, params := [] }
  | b :: rest => { base := b, params := parseQuery (joinSep "?" rest) }

/-- `URLSearchParams.set`: replace the first binding of the key (dropping any
later duplicates), or append a fresh binding at the end. -/
def setParam : List (String × String) → String → String → List (String × String)
  | [], k, v => [(k, v)]
  | (k', v') :: rest, k, v =>
      if k' = k then (k, v) :: rest.filter (fun p => p.1 ≠ k)
      else (k', v') :: setParam rest k v

/-- Read a query parameter from a `UrlModel` (first binding). -/
def getParam (u : UrlModel) (k : String) : Option String :=
  aget u.params k

/-! ## Configuration (environment variables read by `oauth-proxy.ts`) -/

/-- Environment configuration of the OAuth proxy: `ENTRA_CLIENT_ID`,
`ENTRA_TENANT_ID` and `MCP_SERVER_BASE_URL` (with their fallbacks already
applied). `ENTRA_CLIENT_SECRET` never influences control flow and is
omitted. -/
structure ProxyEnv where
  entraClientId : String
  entraTenantId : String
  baseUrl : String
deriving Repr

/-- `entraAuthority ()` from the source. -/
def entraAuthority (env : ProxyEnv) : String :=
  "https://login.microsoftonline.com/" ++ env.entraTenantId

/-- The composite scope string `/authorize` sends to the IdP
(`entraScopes` in the source: the API scope joined with the OIDC basics). -/
def entraScopes (env : ProxyEnv) : String :=
  joinSep " "
    [ "api://" ++ env.entraClientId ++ "/mcp-access",
      "openid", "profile", "email", "offline_access" ]

/-! ## Data model (`oauth-proxy.ts` interfaces) -/

/-- `ClientRegistration` from the source. -/
structure ClientRegistration where
  client_id : String
  client_name : String
  redirect_uris : List String
  grant_types : List String
  response_types : List String
  token_endpoint_auth_method : String
  created_at : Nat
deriving DecidableEq, Repr

/-- `AuthTransaction` from the source. -/
structure AuthTransaction where
  clientId : String
  clientRedirectUri : String
  clientState : String
  clientCodeChallenge : String
  clientCodeChallengeMethod : String
  proxyCodeVerifier : String
  requestedScope : String
  createdAt : Nat
deriving DecidableEq, Repr

/-- `StoredTokens` from the source (the `AuthorizationCodeRecord` of the
spec): the values kept in `authCodes` under a proxy code. -/
structure StoredTokens where
  accessToken : String
  refreshToken : Option String
  expiresIn : Nat
  scope : String
  clientCodeChallenge : String
  clientCodeChallengeMethod : String
  createdAt : Nat
deriving DecidableEq, Repr

/-- The `clientRegistrations` map. -/
abbrev RegStore := List (String × ClientRegistration)

/-- The `authTransactions` map. -/
abbrev TxStore := List (String × AuthTransaction)

/-- The `authCodes` map. -/
abbrev CodeStore := List (String × StoredTokens)

/-! ## The periodic sweeper (`setInterval` block) -/

/-- `TRANSACTION_TTL` (10 minutes, in milliseconds). -/
def TRANSACTION_TTL : Nat := 10 * 60 * 1000

/-- `CODE_TTL` (5 minutes, in milliseconds). -/
def CODE_TTL : Nat := 5 * 60 * 1000

/-- One run of the sweeper over `authTransactions`: drop entries strictly
older than `TRANSACTION_TTL`. -/
def sweepTransactions (now : Nat) (txs : TxStore) : TxStore :=
  txs.filter (fun p => ¬ (TRANSACTION_TTL < now - p.2.createdAt))

/-- One run of the sweeper over `authCodes`: drop entries strictly older
than `CODE_TTL`. -/
def sweepCodes (now : Nat) (codes : CodeStore) : CodeStore :=
  codes.filter (fun p => ¬ (CODE_TTL < now - p.2.createdAt))

/-! ## `POST /register` (RFC 7591 dynamic client registration) -/

/-- The JSON body of a `POST /register` request. `none` models a missing
field (the source applies `||`-defaults to each). -/
structure RegisterBody where
  client_name : Option String
  redirect_uris : Option (List String)
  grant_types : Option (List String)
  response_types : Option (List String)
  token_endpoint_auth_method : Option String
deriving Repr

/-- The JSON body of the 201 response from `/register` (the stored fields
echoed back, without `created_at`). -/
structure RegisterResponse where
  client_id : String
  client_name : String
  redirect_uris : List String
  grant_types : List String
  response_types : List String
  token_endpoint_auth_method : String
deriving DecidableEq, Repr

/-- The `POST /register` handler. `freshId` is the `crypto.randomUUID ()`
result and `now` the `Date.now ()` reading. Returns the HTTP status, the
response body, and the updated `clientRegistrations` map. -/
def handleRegister (body : RegisterBody) (freshId : String) (now : Nat)
    (regs : RegStore) : (Nat × RegisterResponse) × RegStore :=
  let registration : ClientRegistration :=
    { client_id := freshId,
      client_name := body.client_name.getD "MCP Client",
      redirect_uris := body.redirect_uris.getD [],
      grant_types := body.grant_types.getD ["authorization_code", "refresh_token"],
      response_types := body.response_types.getD ["code"],
      token_endpoint_auth_method := body.token_endpoint_auth_method.getD "none",
      created_at := now }
  ((201,
    { client_id := registration.client_id,
      client_name := registration.client_name,
      redirect_uris := registration.redirect_uris,
      grant_types := registration.grant_types,
      response_types := registration.response_types,
      token_endpoint_auth_method := registration.token_endpoint_auth_method }),
   aset regs freshId registration)

/-! ## `GET /authorize` -/

/-- Query parameters of a `GET /authorize` request. The source casts
`req.query` to `Record<string, string>`; a missing parameter is the empty
string (it only ever tests these for truthiness or equality). -/
structure AuthorizeQuery where
  client_id : String
  redirect_uri : String
  scope : String
  state : String
  code_challenge : String
  code_challenge_method : String
  response_type : String
deriving Repr

/-- Result of the `/authorize` handler: a JSON error or a 302 redirect. -/
inductive AuthorizeResult where
  | err (status : Nat) (error : String) (error_description : String)
  | redirect (url : UrlModel)
deriving DecidableEq, Repr

/-- The Entra authorize URL built by `/authorize` (`entraAuthUrl` in the
source): base `<authority>/oauth2/v2.0/authorize` with the parameters set in
source order. `sha256b64u` abstracts `BASE64URL (SHA256 -)`. -/
def entraAuthUrl (env : ProxyEnv) (sha256b64u : String → String)
    (proxyState proxyCodeVerifier : String) : UrlModel :=
  { base := entraAuthority env ++ "/oauth2/v2.0/authorize",
    params :=
      [ ("client_id", env.entraClientId),
        ("response_type", "code"),
        ("redirect_uri", env.baseUrl ++ "/auth/callback"),
        ("scope", entraScopes env),
        ("state", proxyState),
        ("code_challenge", sha256b64u proxyCodeVerifier),
        ("code_challenge_method", "S256") ] }

/-- The `GET /authorize` handler. `proxyState` is the generated
`crypto.randomUUID ()`, `proxyCodeVerifier` the generated random verifier,
`now` the `Date.now ()` reading. Returns the response and the updated
`authTransactions` map. -/
def handleAuthorize (env : ProxyEnv) (sha256b64u : String → String)
    (q : AuthorizeQuery) (proxyState proxyCodeVerifier : String) (now : Nat)
    (txs : TxStore) : AuthorizeResult × TxStore :=
  if q.response_type ≠ "code" then
    (.err 400 "unsupported_response_type" "Only 'code' response type is supported", txs)
  else
    let transaction : AuthTransaction :=
      { clientId := q.client_id,
        clientRedirectUri := q.redirect_uri,
        clientState := q.state,
        clientCodeChallenge := q.code_challenge,
        clientCodeChallengeMethod :=
          if q.code_challenge_method = "" then "S256" else q.code_challenge_method,
        proxyCodeVerifier := proxyCodeVerifier,
        requestedScope := q.scope,
        createdAt := now }
    (.redirect (entraAuthUrl env sha256b64u proxyState proxyCodeVerifier),
     aset txs proxyState transaction)

/-! ## `GET /auth/callback` -/

/-- Query parameters of a `GET /auth/callback` request (same
`Record<string, string>` cast: missing parameter is the empty string, which
is exactly what `if (error)` treats as absent). -/
structure CallbackQuery where
  code : String
  state : String
  error : String
  error_description : String
deriving Repr

/-- Fields of a successful IdP token response that the callback stores. -/
structure IdpTokens where
  access_token : String
  refresh_token : Option String
  expires_in : Nat
  scope : String
deriving DecidableEq, Repr

/-- Outcome of the outbound `fetch` to the IdP token endpoint, as the
callback handler distinguishes it: a JSON payload with an `error` field, a
successful payload, or a thrown exception (network failure). -/
inductive IdpExchange where
  | err (error : String) (error_description : String)
  | ok (tokens : IdpTokens)
  | exn
deriving Repr

/-- Result of the `/auth/callback` handler. `errJson` carries the HTTP
status and the `{error, error_description}` JSON body (also used for the
pass-through of an IdP error payload). -/
inductive CallbackResult where
  | errJson (status : Nat) (error : String) (error_description : String)
  | redirect (url : UrlModel)
deriving DecidableEq, Repr

/-- The `GET /auth/callback` handler. `idp` is the outcome of the code
exchange with the IdP, `proxyCode` the generated `crypto.randomUUID ()`,
`now` the `Date.now ()` reading. Returns the response, the updated
`authTransactions` map and the updated `authCodes` map. -/
def handleCallback (q : CallbackQuery) (idp : IdpExchange) (proxyCode : String)
    (now : Nat) (txs : TxStore) (codes : CodeStore) :
    CallbackResult × TxStore × CodeStore :=
  if q.error ≠ "" then
    (.errJson 400 q.error q.error_description, txs, codes)
  else
    match aget txs q.state with
    | none =>
        (.errJson 400 "invalid_state"
          "Unknown or expired state parameter. Please try again.", txs, codes)
    | some transaction =>
        let txs' := adel txs q.state
        match idp with
        | .err e d => (.errJson 400 e d, txs', codes)
        | .exn =>
            (.errJson 500 "server_error" "Failed to exchange authorization code",
             txs', codes)
        | .ok tokens =>
            let stored : StoredTokens :=
              { accessToken := tokens.access_token,
                refreshToken := tokens.refresh_token,
                expiresIn := tokens.expires_in,
                scope := tokens.scope,
                clientCodeChallenge := transaction.clientCodeChallenge,
                clientCodeChallengeMethod := transaction.clientCodeChallengeMethod,
                createdAt := now }
            let codes' := aset codes proxyCode stored
            let u0 := splitUrl transaction.clientRedirectUri
            let u1 : UrlModel := { u0 with params := setParam u0.params "code" proxyCode }
            let u2 : UrlModel :=
              if transaction.clientState ≠ "" then
                { u1 with params := setParam u1.params "state" transaction.clientState }
              else u1
            (.redirect u2, txs', codes')

/-! ## `POST /token` -/

/-- Form body of a `POST /token` request. Missing fields are the empty
string (the handler only tests them for truthiness or uses them as lookup
keys, and proxy codes / verifiers are never empty). -/
structure TokenBody where
  grant_type : String
  code : String
  redirect_uri : String
  client_id : String
  code_verifier : String
  refresh_token : String
deriving Repr

/-- Result of the `/token` handler: a JSON error, or the 200 token JSON
(`token_type` is always `"Bearer"` in the source and is left implicit). -/
inductive TokenResult where
  | err (status : Nat) (error : String) (error_description : String)
  | ok (access_token : String) (expires_in : Nat) (refresh_token : Option String)
      (scope : String)
deriving DecidableEq, Repr

/-- The `POST /token` handler. `sha256b64u` abstracts `BASE64URL (SHA256 -)`
for the PKCE check; `idp` is the outcome of the refresh-grant proxy call to
the IdP (unused by the authorization-code branch). Returns the response and
the updated `authCodes` map. -/
def handleToken (sha256b64u : String → String) (idp : IdpExchange)
    (body : TokenBody) (codes : CodeStore) : TokenResult × CodeStore :=
  if body.grant_type = "authorization_code" then
    match aget codes body.code with
    | none =>
        (.err 400 "invalid_grant" "Invalid or expired authorization code", codes)
    | some stored =>
        let codes' := adel codes body.code
        if stored.clientCodeChallenge ≠ "" ∧ body.code_verifier ≠ "" then
          let expectedChallenge :=
            if stored.clientCodeChallengeMethod = "S256" then
              sha256b64u body.code_verifier
            else
              body.code_verifier
          if expectedChallenge ≠ stored.clientCodeChallenge then
            (.err 400 "invalid_grant" "PKCE verification failed", codes')
          else
            (.ok stored.accessToken stored.expiresIn stored.refreshToken stored.scope,
             codes')
        else
          (.ok stored.accessToken stored.expiresIn stored.refreshToken stored.scope,
           codes')
  else if body.grant_type = "refresh_token" then
    if body.refresh_token = "" then
      (.err 400 "invalid_request" "Missing refresh_token", codes)
    else
      match idp with
      | .err e d => (.err 400 e d, codes)
      | .exn => (.err 500 "server_error" "Failed to refresh token", codes)
      | .ok tokens =>
          (.ok tokens.access_token tokens.expires_in tokens.refresh_token tokens.scope,
           codes)
  else
    (.err 400 "unsupported_grant_type"
      ("Grant type '" ++ body.grant_type ++ "' is not supported"), codes)

/-! ## Token validator (`validate-jwt.ts`) -/

/-- Decoded JWT header (`jwt.decode (token, {complete: true}).header`).
An empty `kid` stands for a missing `kid` (the only test the source makes
is `if (!header.kid)`). -/
structure JwtHeader where
  alg : String
  kid : String
deriving DecidableEq, Repr

/-- Decoded JWT payload: the claims `validateJwt` reads. `aud`, `iss` and
`scp` are strings with `""` for absent (the source applies `|| `-defaults
or equality checks); `exp` is seconds since epoch; `nbf` is optional;
`oid` and the informational claims are optional strings. -/
structure JwtPayload where
  iss : String
  aud : String
  exp : Nat
  nbf : Option Nat
  oid : Option String
  scp : String
  name : Option String
  preferred_username : Option String
  sub : Option String
  tid : Option String
deriving DecidableEq, Repr

/-- A decoded JWT (`jwt.decode` complete result). -/
structure DecodedJwt where
  header : JwtHeader
  payload : JwtPayload
deriving DecidableEq, Repr

/-- Abstract cryptographic context of the validator:
`decode` is `jwt.decode` (`none` for a malformed token), `jwks` maps a `kid`
to the PEM signing key from the JWKS endpoint (`none` when unknown or the
fetch fails), and `sigValid token key` is the RSA-SHA256 signature check
`jwt.verify` performs. -/
structure JwtCrypto where
  decode : String → Option DecodedJwt
  jwks : String → Option String
  sigValid : String → String → Bool

/-- Environment of the validator: `ENTRA_TENANT_ID`, `ENTRA_CLIENT_ID`,
and the base URL used for the `WWW-Authenticate` challenge
(`MCP_SERVER_BASE_URL` with its localhost fallback). -/
structure JwtEnv where
  tenantId : String
  clientId : String
  baseUrl : String
deriving Repr

/-- The issuer `validateJwt` requires
(`https://login.microsoftonline.com/<tenant>/v2.0`). -/
def expectedIssuer (env : JwtEnv) : String :=
  "https://login.microsoftonline.com/" ++ env.tenantId ++ "/v2.0"

/-- `McpAuthInfo`: the auth object attached to the request on success. -/
structure McpAuthInfo where
  token : String
  clientId : String
  scopes : List String
  oid : Option String
  name : Option String
  preferred_username : Option String
  sub : Option String
  tid : Option String
deriving DecidableEq, Repr

/-- Result of a validator middleware: the 401 discovery challenge (with its
`WWW-Authenticate` header value and JSON body fields), a plain 401 JSON
error, or `next ()` with the optional `req.auth`. -/
inductive MwResult where
  | challenge (wwwAuthenticate : String) (error : String) (message : String)
  | unauthorized (error : String)
  | proceed (auth : Option McpAuthInfo)
deriving DecidableEq, Repr

/-- An incoming request as the middlewares see it: the optional
`Authorization` header. -/
structure MwRequest where
  authorization : Option String
deriving Repr

/-- `authHeader.split (" ") [1]`: the raw token after `Bearer `. -/
def bearerToken (h : String) : String :=
  (splitOnChar ' ' h).getD 1 ""

/-- The claim checks `jwt.verify` performs with
`{audience, issuer, algorithms: [RS256]}`: algorithm whitelist, RSA
signature, `nbf` (when present), `exp` strictly in the future, audience and
issuer equality. -/
def jwtVerifyOk (crypto : JwtCrypto) (env : JwtEnv) (token : String)
    (d : DecodedJwt) (key : String) (now : Nat) : Bool :=
  d.header.alg = "RS256" && crypto.sigValid token key &&
  (match d.payload.nbf with | some n => decide (n ≤ now) | none => true) &&
  decide (now < d.payload.exp) &&
  d.payload.aud = env.clientId &&
  d.payload.iss = expectedIssuer env

/-- The `req.auth` object built on successful verification. -/
def buildAuth (env : JwtEnv) (token : String) (p : JwtPayload) : McpAuthInfo :=
  { token := token,
    clientId := if p.aud ≠ "" then p.aud else env.clientId,
    scopes := (splitOnChar ' ' p.scp).filter (fun s => s ≠ ""),
    oid := p.oid,
    name := p.name,
    preferred_username := p.preferred_username,
    sub := p.sub,
    tid := p.tid }

/-- The strict middleware `validateJwt`. `now` is the verification-time
clock in seconds. -/
def validateJwt (env : JwtEnv) (crypto : JwtCrypto) (now : Nat)
    (req : MwRequest) : MwResult :=
  match req.authorization with
  | none =>
      .challenge
        ("Bearer resource_metadata=\"" ++ env.baseUrl ++
          "/.well-known/oauth-protected-resource\"")
        "unauthorized"
        "Bearer token required. Authenticate via the MCP authorization flow."
  | some h =>
      if ¬ strStartsWith h "Bearer " then
        .challenge
          ("Bearer resource_metadata=\"" ++ env.baseUrl ++
            "/.well-known/oauth-protected-resource\"")
          "unauthorized"
          "Bearer token required. Authenticate via the MCP authorization flow."
      else
        let token := bearerToken h
        match crypto.decode token with
        | none => .unauthorized "Invalid token format"
        | some d =>
            if d.header.kid = "" then .unauthorized "Invalid or expired token"
            else
              match crypto.jwks d.header.kid with
              | none => .unauthorized "Invalid or expired token"
              | some key =>
                  if jwtVerifyOk crypto env token d key now then
                    .proceed (some (buildAuth env token d.payload))
                  else .unauthorized "Invalid or expired token"

/-- The permissive middleware `validateJwtOptional`: identical verification,
but every failure path calls `next ()` with no auth attached. -/
def validateJwtOptional (env : JwtEnv) (crypto : JwtCrypto) (now : Nat)
    (req : MwRequest) : MwResult :=
  match req.authorization with
  | none => .proceed none
  | some h =>
      if ¬ strStartsWith h "Bearer " then .proceed none
      else
        let token := bearerToken h
        match crypto.decode token with
        | none => .proceed none
        | some d =>
            if d.header.kid = "" then .proceed none
            else
              match crypto.jwks d.header.kid with
              | none => .proceed none
              | some key =>
                  if jwtVerifyOk crypto env token d key now then
                    .proceed (some (buildAuth env token d.payload))
                  else .proceed none

/-! ## Concrete sample values

Closed inputs used to evaluate the handlers on explicit traces
(counterexamples and witnesses). -/

/-- A concrete stand-in for `BASE64URL (SHA256 -)`: any fixed function
serves, since the claims are about data flow around the hash. -/
def shaFix : String → String := fun s => "sha-" ++ s

/-- A concrete proxy environment. -/
def sampleEnv : ProxyEnv :=
  { entraClientId := "entra-app", entraTenantId := "tenant", baseUrl := "https://gw" }

/-- A concrete successful IdP token payload. -/
def idpTokensSample : IdpTokens :=
  { access_token := "AT", refresh_token := some "RT",
    expires_in := 3600, scope := "scope1" }

/-- A successful IdP token exchange outcome. -/
def idpOkSample : IdpExchange := .ok idpTokensSample

/-- A code record whose client PKCE challenge matches `shaFix "ver"`. -/
def storedChalMatch : StoredTokens :=
  { accessToken := "AT", refreshToken := some "RT", expiresIn := 3600,
    scope := "scope1", clientCodeChallenge := "sha-ver",
    clientCodeChallengeMethod := "S256", createdAt := 0 }

/-- A code record with a non-empty client PKCE challenge that matches no
verifier under `shaFix`. -/
def storedWithChallenge : StoredTokens :=
  { accessToken := "AT", refreshToken := some "RT", expiresIn := 3600,
    scope := "scope1", clientCodeChallenge := "CHAL",
    clientCodeChallengeMethod := "S256", createdAt := 0 }

/-- A token request redeeming code `pc1` with verifier `ver`. -/
def tbWithVerifier : TokenBody :=
  { grant_type := "authorization_code", code := "pc1", redirect_uri := "",
    client_id := "c1", code_verifier := "ver", refresh_token := "" }

/-- A token request redeeming code `pc1` with no `code_verifier` at all. -/
def tbNoVerifier : TokenBody :=
  { grant_type := "authorization_code", code := "pc1", redirect_uri := "",
    client_id := "c1", code_verifier := "", refresh_token := "" }

/-- A pending transaction created at time 0 (so expired at any time past
`TRANSACTION_TTL`). -/
def txSample : AuthTransaction :=
  { clientId := "c1", clientRedirectUri := "https://app/cb",
    clientState := "cs1", clientCodeChallenge := "CHAL",
    clientCodeChallengeMethod := "S256", proxyCodeVerifier := "pv",
    requestedScope := "s", createdAt := 0 }

/-- A callback from the IdP carrying a code for state `s1`. -/
def cbQueryOk : CallbackQuery :=
  { code := "idpcode", state := "s1", error := "", error_description := "" }

/-- A callback from the IdP carrying a code for state `ps1`. -/
def cbQueryPs : CallbackQuery :=
  { code := "idpcode", state := "ps1", error := "", error_description := "" }

/-- A callback from the IdP reporting an error for state `s1`. -/
def cbQueryErr : CallbackQuery :=
  { code := "", state := "s1", error := "access_denied",
    error_description := "user denied" }

/-- A registration request declaring one redirect URI. -/
def regBodyX : RegisterBody :=
  { client_name := some "X", redirect_uris := some ["https://app/cb"],
    grant_types := none, response_types := none,
    token_endpoint_auth_method := none }

/-- An authorize request whose `redirect_uri` is NOT among the URIs client
`c1` registered. -/
def authQEvil : AuthorizeQuery :=
  { client_id := "c1", redirect_uri := "https://evil.example/cb", scope := "s",
    state := "cs1", code_challenge := "CH", code_challenge_method := "S256",
    response_type := "code" }

/-- A concrete validator environment. -/
def jwtEnvSample : JwtEnv :=
  { tenantId := "tenant", clientId := "entra-app", baseUrl := "https://gw" }

/-- A decoded JWT carrying every claim the validator requires, matching
`jwtEnvSample`. -/
def goodJwt : DecodedJwt :=
  { header := { alg := "RS256", kid := "k1" },
    payload :=
      { iss := "https://login.microsoftonline.com/tenant/v2.0",
        aud := "entra-app", exp := 1000, nbf := none, oid := some "u1",
        scp := "Todo.Read Todo.Write", name := some "U",
        preferred_username := some "u@x", sub := some "sub1",
        tid := some "tenant" } }

/-- A crypto context under which every token decodes to `goodJwt`, the JWKS
knows key `k1`, and every signature verifies. -/
def cryptoGood : JwtCrypto :=
  { decode := fun _ => some goodJwt,
    jwks := fun k => if k = "k1" then some "PEM" else none,
    sigValid := fun _ _ => true }

/-- A crypto context under which every token is malformed
(`jwt.decode` returns `null`). -/
def cryptoMalformed : JwtCrypto :=
  { decode := fun _ => none,
    jwks := fun _ => none,
    sigValid := fun _ _ => false }

/-- A crypto context under which tokens decode to `goodJwt` but no
signature ever verifies. -/
def cryptoBadSig : JwtCrypto :=
  { decode := fun _ => some goodJwt,
    jwks := fun k => if k = "k1" then some "PEM" else none,
    sigValid := fun _ _ => false }

/-- A request carrying a Bearer token. -/
def reqBearer : MwRequest := { authorization := some "Bearer tok123" }

/-- A request with no `Authorization` header. -/
def reqNoAuth : MwRequest := { authorization := none }

/-! ## Store lemmas -/

/-- A successful lookup means the pair is in the list. -/
theorem aget_mem {α : Type} {m : List (String × α)} {k : String} {v : α}
    (h : aget m k = some v) : (k, v) ∈ m := by
  induction m with
  | nil => simp [aget] at h
  | cons p rest ih =>
    rw [aget] at h
    by_cases hk : p.1 = k
    · rw [if_pos hk] at h
      cases p with
      | mk k' v' =>
        simp only at hk
        simp only [Option.some.injEq] at h
        subst hk
        subst h
        exact List.mem_cons_self _ _
    · rw [if_neg hk] at h
      exact List.mem_cons_of_mem _ (ih h)

/-- Deleting a key makes its lookup fail. -/
theorem aget_adel_self {α : Type} (m : List (String × α)) (k : String) :
    aget (adel m k) k = none := by
  induction m with
  | nil => rfl
  | cons p rest ih =>
    rw [adel, List.filter_cons]
    by_cases hk : p.1 = k
    · simp only [hk]
      simpa [adel] using ih
    · simp only [hk, decide_not]
      simpa [aget, hk, adel] using ih

/-- Setting a key makes its lookup succeed with the new value. -/
theorem aget_aset_self {α : Type} (m : List (String × α)) (k : String) (v : α) :
    aget (aset m k v) k = some v := by
  simp [aset, aget]

/-! ## Claim theorems -/

/-- C1: single-use proxy codes. Whenever `POST /token` with
`grant_type = authorization_code` finds the stored record for its code, the
record is deleted regardless of the outcome (the lookup after the call
fails), and any `POST /token` for a code with no stored record — in
particular every replay of a consumed code — returns the 400
`invalid_grant` error. -/
theorem single_use_proxy_codes
    (sha : String → String) (idp idp₂ : IdpExchange) (body body₂ : TokenBody)
    (codes : CodeStore) (r : StoredTokens)
    (hg : body.grant_type = "authorization_code")
    (hc : aget codes body.code = some r)
    (hg₂ : body₂.grant_type = "authorization_code")
    (he : body₂.code = body.code) :
    aget (handleToken sha idp body codes).2 body.code = none ∧
    (handleToken sha idp₂ body₂ (handleToken sha idp body codes).2).1 =
      .err 400 "invalid_grant" "Invalid or expired authorization code" := by
  have hdel : (handleToken sha idp body codes).2 = adel codes body.code := by
    simp only [handleToken, hg, hc, if_pos]
    split_ifs <;> rfl
  refine ⟨?_, ?_⟩
  · rw [hdel]
    exact aget_adel_self codes body.code
  · have h2 : aget (handleToken sha idp body codes).2 body₂.code = none := by
      rw [he, hdel]
      exact aget_adel_self codes body.code
    generalize hgen : (handleToken sha idp body codes).2 = store₁ at h2 ⊢
    simp only [handleToken, hg₂, h2, if_pos]

/-- C1 witness: a concrete code record is consumed by its first redemption
and a second redemption of the same code fails with `invalid_grant`. -/
theorem single_use_proxy_codes_witness :
    aget (handleToken shaFix .exn tbWithVerifier [("pc1", storedChalMatch)]).2 "pc1" = none ∧
    (handleToken shaFix .exn tbWithVerifier
      (handleToken shaFix .exn tbWithVerifier [("pc1", storedChalMatch)]).2).1 =
      .err 400 "invalid_grant" "Invalid or expired authorization code" :=
  single_use_proxy_codes shaFix .exn .exn tbWithVerifier tbWithVerifier
    [("pc1", storedChalMatch)] storedChalMatch rfl (by decide) rfl rfl

/-- C2 (code bug): redeeming a code whose stored record has a NON-EMPTY
client PKCE challenge while sending NO `code_verifier` at all skips the
PKCE check entirely and returns the tokens, because the source guards the
check with `if (stored.clientCodeChallenge && code_verifier)`. The claim
(and RFC 7636 / the spec) require HTTP 400 `invalid_grant` here. -/
theorem token_pkce_skipped_without_verifier :
    handleToken shaFix .exn tbNoVerifier [("pc1", storedWithChallenge)] =
      (.ok "AT" 3600 (some "RT") "scope1", []) := by
  decide

/-- C3 counterexample: an entry past its TTL that the sweeper has not yet
removed is still accepted. At 600001 ms a transaction created at 0 is older
than `TRANSACTION_TTL`, yet `/auth/callback` consumes it and issues a proxy
code; likewise a code record older than `CODE_TTL` is still redeemed for
tokens by `/token`. Neither handler reads the clock for expiry. -/
theorem ttl_expired_entries_still_accepted :
    TRANSACTION_TTL < 600001 - txSample.createdAt ∧
    (handleCallback cbQueryOk idpOkSample "pc1" 600001 [("s1", txSample)] []).1 =
      .redirect { base := "https://app/cb",
                  params := [("code", "pc1"), ("state", "cs1")] } ∧
    CODE_TTL < 300001 - storedChalMatch.createdAt ∧
    (handleToken shaFix .exn tbWithVerifier [("pc1", storedChalMatch)]).1 =
      .ok "AT" 3600 (some "RT") "scope1" := by
  decide

/-- C3 amended: expiry is enforced only by removal. Every entry surviving a
sweeper run is within its TTL, and a request whose state or code is absent
from its store (in particular, one already removed by the sweeper) is
rejected with `invalid_state` / `invalid_grant`; but the handlers perform no
TTL comparison of their own, so an expired entry the sweeper has not yet
removed is still accepted (see the counterexample). -/
theorem ttl_rejection_after_sweep
    (now : Nat) (txs txs₂ : TxStore) (codes : CodeStore) (k c : String)
    (tx : AuthTransaction) (r : StoredTokens)
    (q : CallbackQuery) (idp idp₂ : IdpExchange) (pc : String) (n₂ : Nat)
    (sha : String → String) (body : TokenBody) (codes₂ : CodeStore) :
    (aget (sweepTransactions now txs) k = some tx →
      now - tx.createdAt ≤ TRANSACTION_TTL) ∧
    (aget (sweepCodes now codes) c = some r → now - r.createdAt ≤ CODE_TTL) ∧
    (q.error = "" → aget txs₂ q.state = none →
      (handleCallback q idp pc n₂ txs₂ codes).1 =
        .errJson 400 "invalid_state"
          "Unknown or expired state parameter. Please try again.") ∧
    (body.grant_type = "authorization_code" → aget codes₂ body.code = none →
      (handleToken sha idp₂ body codes₂).1 =
        .err 400 "invalid_grant" "Invalid or expired authorization code") := by
  refine ⟨?_, ?_, ?_, ?_⟩
  · intro h
    have hmem := aget_mem h
    rw [sweepTransactions] at hmem
    have := (List.mem_filter.mp hmem).2
    simp only [decide_eq_true_eq] at this
    omega
  · intro h
    have hmem := aget_mem h
    rw [sweepCodes] at hmem
    have := (List.mem_filter.mp hmem).2
    simp only [decide_eq_true_eq] at this
    omega
  · intro h1 h2
    simp [handleCallback, h1, h2]
  · intro h1 h2
    simp [handleToken, h1, h2]

/-- C3 witness: concrete absent entries are rejected, and a concrete entry
surviving a sweep is within its TTL. -/
theorem ttl_rejection_after_sweep_witness :
    (0 : Nat) - txSample.createdAt ≤ TRANSACTION_TTL ∧
    (handleCallback cbQueryOk idpOkSample "pc1" 0 [] []).1 =
      .errJson 400 "invalid_state"
        "Unknown or expired state parameter. Please try again." ∧
    (handleToken shaFix .exn tbWithVerifier []).1 =
      .err 400 "invalid_grant" "Invalid or expired authorization code" := by
  have h := ttl_rejection_after_sweep 0 [("s1", txSample)] [] [] "s1" "c" txSample
    storedChalMatch cbQueryOk idpOkSample .exn "pc1" 0 shaFix tbWithVerifier []
  exact ⟨h.1 (by decide), h.2.2.1 rfl rfl, h.2.2.2 rfl rfl⟩

/-- C4 counterexample: the 302 sent from `/auth/callback` need not be a
registered redirect URI. Client `c1` registers only `https://app/cb`, the
`/authorize` request names `https://evil.example/cb`, and — since neither
handler consults `clientRegistrations` — the callback redirects to
`https://evil.example/cb` with the proxy code. -/
theorem redirect_to_unregistered_uri :
    (handleRegister regBodyX "c1" 0 []).1.2.redirect_uris = ["https://app/cb"] ∧
    (handleCallback cbQueryPs idpOkSample "pc1" 1
        (handleAuthorize sampleEnv shaFix authQEvil "ps1" "pv1" 0 []).2 []).1 =
      .redirect { base := "https://evil.example/cb",
                  params := [("code", "pc1"), ("state", "cs1")] } ∧
    ¬ ("https://evil.example/cb" ∈ ["https://app/cb"]) := by
  decide

/-- C4 amended: the callback's 302 Location is the `redirect_uri` supplied
in the `/authorize` request — stored verbatim in the transaction, never
checked against the client's registration — with exactly `code` and, when a
client `state` was supplied, `state` set as query parameters, and the part
before the query string unchanged. -/
theorem redirect_reflects_authorize_request
    (env : ProxyEnv) (sha : String → String) (q : AuthorizeQuery)
    (ps pv : String) (n₁ : Nat) (txs₀ : TxStore)
    (q₂ : CallbackQuery) (tokens : IdpTokens) (pc : String) (n₂ : Nat)
    (txs : TxStore) (codes : CodeStore) (tx : AuthTransaction)
    (hq : q.response_type = "code")
    (hq₂ : q₂.error = "")
    (htx : aget txs q₂.state = some tx) :
    (aget (handleAuthorize env sha q ps pv n₁ txs₀).2 ps).map
        (fun t => t.clientRedirectUri) = some q.redirect_uri ∧
    (handleCallback q₂ (.ok tokens) pc n₂ txs codes).1 =
      .redirect
        { base := (splitUrl tx.clientRedirectUri).base,
          params :=
            if tx.clientState ≠ "" then
              setParam (setParam (splitUrl tx.clientRedirectUri).params "code" pc)
                "state" tx.clientState
            else
              setParam (splitUrl tx.clientRedirectUri).params "code" pc } := by
  constructor
  · simp [handleAuthorize, hq, aget_aset_self]
  · simp only [handleCallback, hq₂, htx, ne_eq, not_true_eq_false, if_false,
      Bool.false_eq_true, reduceIte]
    split_ifs <;> simp

/-- C4 witness: the amended redirect fidelity evaluated on a concrete
transaction. -/
theorem redirect_reflects_authorize_request_witness :
    (aget (handleAuthorize sampleEnv shaFix authQEvil "ps1" "pv1" 0 []).2 "ps1").map
        (fun t => t.clientRedirectUri) = some "https://evil.example/cb" ∧
    (handleCallback cbQueryPs (.ok idpTokensSample) "pc1" 1
        [("ps1", txSample)] []).1 =
      .redirect { base := "https://app/cb",
                  params := [("code", "pc1"), ("state", "cs1")] } :=
  redirect_reflects_authorize_request sampleEnv shaFix authQEvil "ps1" "pv1" 0 []
    cbQueryPs idpTokensSample "pc1" 1 [("ps1", txSample)] [] txSample
    rfl rfl (by decide)

/-- C5 counterexample: when the IdP reports an error, the callback returns
before the state lookup, so the pending `AuthTransaction` for that `state`
is NOT consumed: the stores come back unchanged and the transaction is
still retrievable. The claim says the transaction is consumed on every
failing callback. -/
theorem callback_error_branch_keeps_transaction :
    handleCallback cbQueryErr idpOkSample "pc1" 0 [("s1", txSample)] [] =
      (.errJson 400 "access_denied" "user denied", [("s1", txSample)], []) ∧
    aget [("s1", txSample)] "s1" = some txSample := by
  decide

/-- C5 amended: a callback without an IdP `error` parameter whose `state`
was never issued (or already consumed) is rejected with `invalid_state` and
changes nothing; when the state is found, the transaction is consumed on
every path — including the IdP-error and exception paths, which issue no
proxy code. Only the IdP-`error` branch, which returns before the lookup,
leaves the transaction in place (see the counterexample); it too issues no
proxy code. -/
theorem state_binding_and_failure_consumption
    (q : CallbackQuery) (idp : IdpExchange) (pc : String) (now : Nat)
    (txs : TxStore) (codes : CodeStore)
    (herr : q.error = "") :
    (aget txs q.state = none →
      handleCallback q idp pc now txs codes =
        (.errJson 400 "invalid_state"
          "Unknown or expired state parameter. Please try again.", txs, codes)) ∧
    (∀ tx, aget txs q.state = some tx →
      aget (handleCallback q idp pc now txs codes).2.1 q.state = none ∧
      (∀ e d, idp = .err e d →
        handleCallback q idp pc now txs codes =
          (.errJson 400 e d, adel txs q.state, codes)) ∧
      (idp = .exn →
        handleCallback q idp pc now txs codes =
          (.errJson 500 "server_error" "Failed to exchange authorization code",
           adel txs q.state, codes))) := by
  constructor
  · intro h
    simp [handleCallback, herr, h]
  · intro tx htx
    refine ⟨?_, ?_, ?_⟩
    · have : (handleCallback q idp pc now txs codes).2.1 = adel txs q.state := by
        cases idp <;> simp [handleCallback, herr, htx]
      rw [this]
      exact aget_adel_self txs q.state
    · intro e d hidp
      subst hidp
      simp [handleCallback, herr, htx]
    · intro hidp
      subst hidp
      simp [handleCallback, herr, htx]

/-- C5 witness: a never-issued state is rejected; a found transaction is
consumed and no code is issued when the exchange throws. -/
theorem state_binding_and_failure_consumption_witness :
    handleCallback cbQueryOk .exn "pc1" 0 [] [] =
      (.errJson 400 "invalid_state"
        "Unknown or expired state parameter. Please try again.", [], []) ∧
    aget (handleCallback cbQueryOk .exn "pc1" 0 [("s1", txSample)] []).2.1 "s1" = none ∧
    handleCallback cbQueryOk .exn "pc1" 0 [("s1", txSample)] [] =
      (.errJson 500 "server_error" "Failed to exchange authorization code",
       [], []) := by
  have h₀ := state_binding_and_failure_consumption cbQueryOk .exn "pc1" 0 [] [] rfl
  have h₁ := state_binding_and_failure_consumption cbQueryOk .exn "pc1" 0
    [("s1", txSample)] [] rfl
  exact ⟨h₀.1 (by decide), (h₁.2 txSample (by decide)).1,
    (h₁.2 txSample (by decide)).2.2 rfl⟩

/-- C6: JWT validation completeness for the strict validator. With a Bearer
token that decodes, whose `kid` resolves in the JWKS: if the algorithm is
RS256, the signature verifies, and `iss` / `aud` / `exp` match the
configuration, the middleware proceeds with the identity attached and its
`oid` is the token's `oid` claim; if the signature, algorithm, issuer,
audience, or expiry check fails, the middleware responds 401. -/
theorem jwt_validation_completeness
    (env : JwtEnv) (crypto : JwtCrypto) (now : Nat) (h : String)
    (d : DecodedJwt) (key : String) (req : MwRequest)
    (hreq : req.authorization = some h)
    (hb : strStartsWith h "Bearer " = true)
    (hd : crypto.decode (bearerToken h) = some d)
    (hk : d.header.kid ≠ "")
    (hj : crypto.jwks d.header.kid = some key)
    (hnbf : d.payload.nbf = none) :
    (d.header.alg = "RS256" → crypto.sigValid (bearerToken h) key = true →
      d.payload.iss = expectedIssuer env → d.payload.aud = env.clientId →
      now < d.payload.exp →
        validateJwt env crypto now req =
          .proceed (some (buildAuth env (bearerToken h) d.payload)) ∧
        (buildAuth env (bearerToken h) d.payload).oid = d.payload.oid) ∧
    (crypto.sigValid (bearerToken h) key = false →
      validateJwt env crypto now req = .unauthorized "Invalid or expired token") ∧
    (d.header.alg ≠ "RS256" →
      validateJwt env crypto now req = .unauthorized "Invalid or expired token") ∧
    (d.payload.iss ≠ expectedIssuer env →
      validateJwt env crypto now req = .unauthorized "Invalid or expired token") ∧
    (d.payload.aud ≠ env.clientId →
      validateJwt env crypto now req = .unauthorized "Invalid or expired token") ∧
    (d.payload.exp ≤ now →
      validateJwt env crypto now req = .unauthorized "Invalid or expired token") := by
  have hform : validateJwt env crypto now req =
      if jwtVerifyOk crypto env (bearerToken h) d key now then
        .proceed (some (buildAuth env (bearerToken h) d.payload))
      else .unauthorized "Invalid or expired token" := by
    simp [validateJwt, hreq, hb, hd, hk, hj]
  refine ⟨?_, ?_, ?_, ?_, ?_, ?_⟩
  · intro h1 h2 h3 h4 h5
    have hv : jwtVerifyOk crypto env (bearerToken h) d key now = true := by
      simp [jwtVerifyOk, h1, h2, h3, h4, h5, hnbf]
    rw [hform, hv]
    exact ⟨rfl, rfl⟩
  · intro h2
    have hv : jwtVerifyOk crypto env (bearerToken h) d key now = false := by
      simp [jwtVerifyOk, h2]
    rw [hform, hv]
    rfl
  · intro h1
    have hv : jwtVerifyOk crypto env (bearerToken h) d key now = false := by
      simp [jwtVerifyOk, h1]
    rw [hform, hv]
    rfl
  · intro h3
    have hv : jwtVerifyOk crypto env (bearerToken h) d key now = false := by
      simp [jwtVerifyOk, h3]
    rw [hform, hv]
    rfl
  · intro h4
    have hv : jwtVerifyOk crypto env (bearerToken h) d key now = false := by
      simp [jwtVerifyOk, h4]
    rw [hform, hv]
    rfl
  · intro h5
    have hv : jwtVerifyOk crypto env (bearerToken h) d key now = false := by
      simp [jwtVerifyOk, Nat.not_lt.mpr h5]
    rw [hform, hv]
    rfl

/-- C6 witness: a concrete well-formed token is accepted with its `oid`
attached, and the same token under a context where no signature verifies is
rejected with 401. -/
theorem jwt_validation_completeness_witness :
    (validateJwt jwtEnvSample cryptoGood 500 reqBearer =
      .proceed (some (buildAuth jwtEnvSample "tok123" goodJwt.payload)) ∧
     (buildAuth jwtEnvSample "tok123" goodJwt.payload).oid = some "u1") ∧
    validateJwt jwtEnvSample cryptoBadSig 500 reqBearer =
      .unauthorized "Invalid or expired token" := by
  have h₁ := jwt_validation_completeness jwtEnvSample cryptoGood 500
    "Bearer tok123" goodJwt "PEM" reqBearer rfl (by decide) rfl (by decide)
    (by decide) rfl
  have h₂ := jwt_validation_completeness jwtEnvSample cryptoBadSig 500
    "Bearer tok123" goodJwt "PEM" reqBearer rfl (by decide) rfl (by decide)
    (by decide) rfl
  exact ⟨h₁.1 rfl rfl rfl rfl (by decide), h₂.2.1 rfl⟩

/-- C7: whenever the `Authorization` header is missing or does not start
with `Bearer `, the strict validator answers 401 with the exact
`WWW-Authenticate: Bearer resource_metadata="<base>/.well-known/oauth-protected-resource"`
challenge and a JSON body whose `error` is `unauthorized`. -/
theorem strict_challenge_on_missing_bearer
    (env : JwtEnv) (crypto : JwtCrypto) (now : Nat) (req : MwRequest)
    (h : req.authorization = none ∨
      ∃ hd, req.authorization = some hd ∧ strStartsWith hd "Bearer " = false) :
    validateJwt env crypto now req =
      .challenge
        ("Bearer resource_metadata=\"" ++ env.baseUrl ++
          "/.well-known/oauth-protected-resource\"")
        "unauthorized"
        "Bearer token required. Authenticate via the MCP authorization flow." := by
  rcases h with h | ⟨hd, hh, hb⟩
  · simp [validateJwt, h]
  · simp [validateJwt, hh, hb]

/-- C7 witness: the challenge on a concrete request with no header. -/
theorem strict_challenge_on_missing_bearer_witness :
    validateJwt jwtEnvSample cryptoGood 0 reqNoAuth =
      .challenge
        "Bearer resource_metadata=\"https://gw/.well-known/oauth-protected-resource\""
        "unauthorized"
        "Bearer token required. Authenticate via the MCP authorization flow." :=
  strict_challenge_on_missing_bearer jwtEnvSample cryptoGood 0 reqNoAuth
    (Or.inl rfl)

/-- C8: PKCE layer separation. Every accepted `/authorize` request
redirects to the Entra URL whose `code_challenge` is the hash of the
freshly generated gateway verifier and whose method is `S256`; and two
requests that differ only in the client's `code_challenge` and
`code_challenge_method` produce (given the same generated randomness) the
identical IdP redirect — the client's PKCE values never reach the IdP
request. -/
theorem pkce_layer_separation
    (env : ProxyEnv) (sha : String → String) (q : AuthorizeQuery)
    (ps pv : String) (now : Nat) (txs : TxStore) (c m : String)
    (hq : q.response_type = "code") :
    (handleAuthorize env sha q ps pv now txs).1 =
      .redirect (entraAuthUrl env sha ps pv) ∧
    getParam (entraAuthUrl env sha ps pv) "code_challenge" = some (sha pv) ∧
    getParam (entraAuthUrl env sha ps pv) "code_challenge_method" = some "S256" ∧
    (handleAuthorize env sha
        { q with code_challenge := c, code_challenge_method := m }
        ps pv now txs).1 =
      (handleAuthorize env sha q ps pv now txs).1 := by
  refine ⟨?_, ?_, ?_, ?_⟩
  · simp [handleAuthorize, hq]
  · simp [getParam, entraAuthUrl, aget]
  · simp [getParam, entraAuthUrl, aget]
  · simp [handleAuthorize, hq]

/-- C8 witness: layer separation on a concrete authorize request. -/
theorem pkce_layer_separation_witness :
    (handleAuthorize sampleEnv shaFix authQEvil "ps1" "pv1" 0 []).1 =
      .redirect (entraAuthUrl sampleEnv shaFix "ps1" "pv1") ∧
    getParam (entraAuthUrl sampleEnv shaFix "ps1" "pv1") "code_challenge" =
      some (shaFix "pv1") ∧
    getParam (entraAuthUrl sampleEnv shaFix "ps1" "pv1") "code_challenge_method" =
      some "S256" ∧
    (handleAuthorize sampleEnv shaFix
        { authQEvil with code_challenge := "other", code_challenge_method := "plain" }
        "ps1" "pv1" 0 []).1 =
      (handleAuthorize sampleEnv shaFix authQEvil "ps1" "pv1" 0 []).1 :=
  pkce_layer_separation sampleEnv shaFix authQEvil "ps1" "pv1" 0 [] "other" "plain" rfl

/-- C9: registration contract. Every `POST /register` returns 201 with the
minted `client_id` and the registered fields echoed back; missing fields
are filled with the documented defaults, and supplied `redirect_uris` are
stored verbatim and retrievable under the minted id. -/
theorem register_contract
    (body : RegisterBody) (freshId : String) (now : Nat) (regs : RegStore) :
    (handleRegister body freshId now regs).1.1 = 201 ∧
    (handleRegister body freshId now regs).1.2 =
      { client_id := freshId,
        client_name := body.client_name.getD "MCP Client",
        redirect_uris := body.redirect_uris.getD [],
        grant_types := body.grant_types.getD ["authorization_code", "refresh_token"],
        response_types := body.response_types.getD ["code"],
        token_endpoint_auth_method := body.token_endpoint_auth_method.getD "none" } ∧
    (∀ uris, body.redirect_uris = some uris →
      (aget (handleRegister body freshId now regs).2 freshId).map
        (fun r => r.redirect_uris) = some uris) := by
  refine ⟨rfl, rfl, ?_⟩
  intro uris hu
  simp [handleRegister, aget_aset_self, hu]

/-- C9 witness: a concrete registration gets 201, the minted id, the echoed
fields with defaults, and its redirect URIs stored verbatim. -/
theorem register_contract_witness :
    (handleRegister regBodyX "c1" 0 []).1.1 = 201 ∧
    (handleRegister regBodyX "c1" 0 []).1.2 =
      { client_id := "c1", client_name := "X",
        redirect_uris := ["https://app/cb"],
        grant_types := ["authorization_code", "refresh_token"],
        response_types := ["code"],
        token_endpoint_auth_method := "none" } ∧
    (aget (handleRegister regBodyX "c1" 0 []).2 "c1").map
      (fun r => r.redirect_uris) = some ["https://app/cb"] := by
  have h := register_contract regBodyX "c1" 0 []
  exact ⟨h.1, h.2.1, h.2.2 ["https://app/cb"] rfl⟩

/-- C10 (implicit): the permissive validator never rejects. Every request
gets `next ()` (never a 401 or a challenge), and a request whose Bearer
token is malformed, has no resolvable `kid`, or fails verification proceeds
with no identity attached, exactly like a request with no token. -/
theorem permissive_never_rejects
    (env : JwtEnv) (crypto : JwtCrypto) (now : Nat) (req : MwRequest) :
    (∃ a, validateJwtOptional env crypto now req = .proceed a) ∧
    (∀ h, req.authorization = some h →
      (crypto.decode (bearerToken h) = none ∨
       ∃ d, crypto.decode (bearerToken h) = some d ∧
         (d.header.kid = "" ∨ crypto.jwks d.header.kid = none ∨
          ∃ key, crypto.jwks d.header.kid = some key ∧
            jwtVerifyOk crypto env (bearerToken h) d key now = false)) →
      validateJwtOptional env crypto now req = .proceed none) := by
  constructor
  · rcases hh : req.authorization with _ | h
    · exact ⟨none, by simp [validateJwtOptional, hh]⟩
    · by_cases hb : strStartsWith h "Bearer " = true
      · rcases hd : crypto.decode (bearerToken h) with _ | d
        · exact ⟨none, by simp [validateJwtOptional, hh, hb, hd]⟩
        · by_cases hk : d.header.kid = ""
          · exact ⟨none, by simp [validateJwtOptional, hh, hb, hd, hk]⟩
          · rcases hj : crypto.jwks d.header.kid with _ | key
            · exact ⟨none, by simp [validateJwtOptional, hh, hb, hd, hk, hj]⟩
            · by_cases hv : jwtVerifyOk crypto env (bearerToken h) d key now = true
              · exact ⟨some (buildAuth env (bearerToken h) d.payload),
                  by simp [validateJwtOptional, hh, hb, hd, hk, hj, hv]⟩
              · exact ⟨none,
                  by simp [validateJwtOptional, hh, hb, hd, hk, hj, hv]⟩
      · exact ⟨none, by simp [validateJwtOptional, hh, hb]⟩
  · intro h hh hfail
    by_cases hb : strStartsWith h "Bearer " = true
    · rcases hfail with hd | ⟨d, hd, hfail⟩
      · simp [validateJwtOptional, hh, hb, hd]
      · rcases hfail with hk | hj | ⟨key, hj, hv⟩
        · simp [validateJwtOptional, hh, hb, hd, hk]
        · have hk : ¬ d.header.kid = "" ∨ d.header.kid = "" := em _ |>.symm
          rcases hk with hk | hk
          · simp [validateJwtOptional, hh, hb, hd, hk, hj]
          · simp [validateJwtOptional, hh, hb, hd, hk]
        · have hk : ¬ d.header.kid = "" ∨ d.header.kid = "" := em _ |>.symm
          rcases hk with hk | hk
          · simp [validateJwtOptional, hh, hb, hd, hk, hj, hv]
          · simp [validateJwtOptional, hh, hb, hd, hk]
    · simp [validateJwtOptional, hh, hb]

/-- C10 witness: a malformed token and a bad-signature token both fall
through unauthenticated. -/
theorem permissive_never_rejects_witness :
    validateJwtOptional jwtEnvSample cryptoMalformed 0 reqBearer = .proceed none ∧
    validateJwtOptional jwtEnvSample cryptoBadSig 0 reqBearer = .proceed none := by
  refine ⟨?_, ?_⟩
  · exact (permissive_never_rejects jwtEnvSample cryptoMalformed 0 reqBearer).2
      "Bearer tok123" rfl (Or.inl rfl)
  · exact (permissive_never_rejects jwtEnvSample cryptoBadSig 0 reqBearer).2
      "Bearer tok123" rfl
      (Or.inr ⟨goodJwt, rfl, Or.inr (Or.inr ⟨"PEM", by decide, by decide⟩)⟩)

end McpGateway
